import Mathlib

/-!
Verification development for the rating engine of `padel_app.py`
(Diazbowl300/padel-league).

Shallow embedding conventions:
* Python floats are modelled as real numbers (`ℝ`); the match scores,
  which Python keeps as `int`, are modelled as `ℤ`.
* The SQLite `players` table is modelled as a partial map `ℕ → Option Player`,
  the `matches` table as an append-only `List MatchRec` (the autoincrement id
  and timestamp columns play no role in the verified properties).
* `process_match` is translated statement by statement from lines 104-181 of
  `padel_app.py`; the database connection is replaced by explicit state
  passing: the function receives a `DB` and returns the `DB` after the call
  together with the outcome of the call.
* A missing player row makes the Python code crash: `c.fetchone()` yields
  `None` and the tuple unpacking `r1, m1 = players[p1_id]` raises an uncaught
  `TypeError` before any arithmetic or any write is executed.  This uncaught
  exception is modelled by the outcome `PMResult.crashed`; it is not a value
  returned by the Python function.
-/

namespace Padel

/-- `K_FACTOR_STANDARD = 32` (`padel_app.py` line 8). -/
def K_FACTOR_STANDARD : ℝ := 32

/-- `K_FACTOR_PROVISIONAL = 64` (`padel_app.py` line 9). -/
def K_FACTOR_PROVISIONAL : ℝ := 64

/-- `PROVISIONAL_LIMIT = 5` (`padel_app.py` line 10). -/
def PROVISIONAL_LIMIT : ℕ := 5

/-- `RATING_FLOOR = 100` (`padel_app.py` line 11). -/
def RATING_FLOOR : ℝ := 100

/-- One row of the `players` table: the two columns read and written by
`process_match` (`rating REAL`, `matches_played INTEGER`). -/
structure Player where
  rating : ℝ
  matches_played : ℕ

/-- One row of the `matches` table as inserted by `process_match`
(`padel_app.py` lines 174-177); id and timestamp omitted. -/
structure MatchRec where
  p1_id : ℕ
  p2_id : ℕ
  p3_id : ℕ
  p4_id : ℕ
  score_team1 : ℤ
  score_team2 : ℤ
  rating_change_team1 : ℝ
  rating_change_team2 : ℝ

/-- The database state seen by `process_match`: the `players` table keyed by
player id, and the append-only `matches` log. -/
structure DB where
  players : ℕ → Option Player
  match_log : List MatchRec

/-- Outcome of one `process_match` call.
`ok c` models the return `(True, "Match recorded! ...")`, carrying the
`ref_change` value interpolated into the message; `invalidScore` models the
return `(False, "Total points cannot be zero.")` (line 138); `crashed` models
the uncaught `TypeError` raised when unpacking a missing player row — the
Python function returns nothing in that case. -/
inductive PMResult where
  | ok (ref_change : ℝ)
  | invalidScore
  | crashed

/-- `true` exactly when the call returned successfully (`True, msg`). -/
def PMResult.isOk : PMResult → Bool
  | .ok _ => true
  | _ => false

/-- `calculate_expected_score` (`padel_app.py` lines 97-102):
`1 / (1 + 10 ** ((rating_b - rating_a) / 400))`. -/
noncomputable def calculate_expected_score (rating_a rating_b : ℝ) : ℝ :=
  1 / (1 + (10 : ℝ) ^ ((rating_b - rating_a) / 400))

/-- `actual_t1 = score_t1 / total_points` (`padel_app.py` line 140): Python
true division of two ints, i.e. real division of the casts. -/
noncomputable def actual_score (score_t1 total_points : ℤ) : ℝ :=
  (score_t1 : ℝ) / (total_points : ℝ)

/-- The K-factor selection appearing verbatim on lines 150 and 159:
`k = K_FACTOR_PROVISIONAL if matches < PROVISIONAL_LIMIT else K_FACTOR_STANDARD`. -/
noncomputable def kfactor (m : ℕ) : ℝ :=
  if m < PROVISIONAL_LIMIT then K_FACTOR_PROVISIONAL else K_FACTOR_STANDARD

/-- `change = k * (actual_t1 - expected_t1)` (`padel_app.py` line 151,
Team 1 loop). -/
noncomputable def team1_change (k actual_t1 expected_t1 : ℝ) : ℝ :=
  k * (actual_t1 - expected_t1)

/-- `change = k * ((1 - actual_t1) - (1 - expected_t1))` (`padel_app.py`
line 160, Team 2 loop). -/
noncomputable def team2_change (k actual_t1 expected_t1 : ℝ) : ℝ :=
  k * ((1 - actual_t1) - (1 - expected_t1))

/-- `new_rating = max(RATING_FLOOR, rating + change)` (`padel_app.py`
lines 152 and 161). -/
noncomputable def new_rating (rating change : ℝ) : ℝ :=
  max RATING_FLOOR (rating + change)

/-- `process_match` (`padel_app.py` lines 104-181), translated statement by
statement.  The initial four-way `match` models the fetch loop (lines
118-121) followed by the four tuple unpackings (lines 123-126): if any row is
missing the unpacking raises, which is the `crashed` branch, reached before
any state is written.  The two `List.map`s are the two update loops (lines
149-153 and 158-162); `List.foldl` over `Function.update` is the UPDATE loop
(lines 166-167) — every id written was just read, so the SQL UPDATE of an
existing row coincides with `Function.update`; `updates.headD` is
`updates[0]` (line 172, the list is never empty). -/
noncomputable def process_match (db : DB) (p1_id p2_id p3_id p4_id : ℕ)
    (score_t1 score_t2 : ℤ) : DB × PMResult :=
  match db.players p1_id, db.players p2_id, db.players p3_id, db.players p4_id with
  | some pl1, some pl2, some pl3, some pl4 =>
    let r1 := pl1.rating
    let m1 := pl1.matches_played
    let r2 := pl2.rating
    let m2 := pl2.matches_played
    let r3 := pl3.rating
    let m3 := pl3.matches_played
    let r4 := pl4.rating
    let m4 := pl4.matches_played
    let team1_rating := (r1 + r2) / 2
    let team2_rating := (r3 + r4) / 2
    let expected_t1 := calculate_expected_score team1_rating team2_rating
    let total_points := score_t1 + score_t2
    if total_points = 0 then
      (db, PMResult.invalidScore)
    else
      let actual_t1 := actual_score score_t1 total_points
      let updates : List (ℕ × ℝ × ℕ) :=
        ([(p1_id, r1, m1), (p2_id, r2, m2)].map fun pm =>
          (pm.1, new_rating pm.2.1 (team1_change (kfactor pm.2.2) actual_t1 expected_t1),
            pm.2.2 + 1)) ++
        ([(p3_id, r3, m3), (p4_id, r4, m4)].map fun pm =>
          (pm.1, new_rating pm.2.1 (team2_change (kfactor pm.2.2) actual_t1 expected_t1),
            pm.2.2 + 1))
      let players2 := updates.foldl
        (fun (f : ℕ → Option Player) (u : ℕ × ℝ × ℕ) =>
          Function.update f u.1 (some ⟨u.2.1, u.2.2⟩)) db.players
      let ref_change := (updates.headD (p1_id, r1, m1)).2.1 - r1
      let newMatch : MatchRec :=
        ⟨p1_id, p2_id, p3_id, p4_id, score_t1, score_t2, ref_change, -ref_change⟩
      (⟨players2, db.match_log ++ [newMatch]⟩, PMResult.ok ref_change)
  | _, _, _, _ => (db, PMResult.crashed)

/-- Message produced by the Record-Match submit handler in `main`
(`padel_app.py` lines 247-263). -/
inductive SubmitMsg where
  | errorDuplicate
  | errorZeroTotal
  | fromEngine (r : PMResult)

/-- The validation performed by the presentation layer around the engine call
(`padel_app.py` lines 247-259): `len(set(selected_players)) != 4` (the four
selected entries, deduplicated, must number four), then the zero-score check,
then `process_match`.  The UI works with the four selected names, which the
`player_dict` maps bijectively to ids; the selection is modelled by ids. -/
noncomputable def submit_result (db : DB) (q1 q2 q3 q4 : ℕ)
    (score_t1 score_t2 : ℤ) : DB × SubmitMsg :=
  if [q1, q2, q3, q4].dedup.length ≠ 4 then
    (db, SubmitMsg.errorDuplicate)
  else if score_t1 = 0 ∧ score_t2 = 0 then
    (db, SubmitMsg.errorZeroTotal)
  else
    let res := process_match db q1 q2 q3 q4 score_t1 score_t2
    (res.fst, SubmitMsg.fromEngine res.snd)

/-- A concrete database with four players, all at rating 100 with 0 matches
played (the floor scenario of the specification), used for witnesses. -/
noncomputable def sampleDB : DB :=
  ⟨fun n =>
    if n = 1 then some ⟨100, 0⟩
    else if n = 2 then some ⟨100, 0⟩
    else if n = 3 then some ⟨100, 0⟩
    else if n = 4 then some ⟨100, 0⟩
    else none, []⟩

/-- A concrete database in which player id 4 has no row. -/
noncomputable def missingDB : DB :=
  ⟨fun n =>
    if n = 1 then some ⟨100, 0⟩
    else if n = 2 then some ⟨100, 0⟩
    else if n = 3 then some ⟨100, 0⟩
    else none, []⟩

theorem calculate_expected_score_self (a : ℝ) :
    calculate_expected_score a a = 1 / 2 := by
  unfold calculate_expected_score
  rw [sub_self, zero_div, Real.rpow_zero]
  norm_num

theorem calculate_expected_score_add_symm (a b : ℝ) :
    calculate_expected_score a b + calculate_expected_score b a = 1 := by
  unfold calculate_expected_score
  have hx : (0 : ℝ) < (10 : ℝ) ^ ((b - a) / 400) :=
    Real.rpow_pos_of_pos (by norm_num) _
  have hrw : (10 : ℝ) ^ ((a - b) / 400) = ((10 : ℝ) ^ ((b - a) / 400))⁻¹ := by
    rw [show (a - b) / 400 = -((b - a) / 400) by ring,
      Real.rpow_neg (by norm_num : (0 : ℝ) ≤ 10)]
  rw [hrw]
  have hx0 : (10 : ℝ) ^ ((b - a) / 400) ≠ 0 := ne_of_gt hx
  have h1x : 1 + (10 : ℝ) ^ ((b - a) / 400) ≠ 0 := by positivity
  field_simp
  ring

/-- Evaluation of `process_match` on its success path: all four rows present
and a non-zero total.  The resulting state and outcome, written out. -/
theorem process_match_run (db : DB) (p1 p2 p3 p4 : ℕ) (s1 s2 : ℤ)
    (r1 r2 r3 r4 : ℝ) (m1 m2 m3 m4 : ℕ)
    (h1 : db.players p1 = some ⟨r1, m1⟩) (h2 : db.players p2 = some ⟨r2, m2⟩)
    (h3 : db.players p3 = some ⟨r3, m3⟩) (h4 : db.players p4 = some ⟨r4, m4⟩)
    (hs : s1 + s2 ≠ 0) :
    process_match db p1 p2 p3 p4 s1 s2 =
      (⟨Function.update (Function.update (Function.update (Function.update db.players
          p1 (some ⟨new_rating r1 (team1_change (kfactor m1) (actual_score s1 (s1 + s2))
                (calculate_expected_score ((r1 + r2) / 2) ((r3 + r4) / 2))), m1 + 1⟩))
          p2 (some ⟨new_rating r2 (team1_change (kfactor m2) (actual_score s1 (s1 + s2))
                (calculate_expected_score ((r1 + r2) / 2) ((r3 + r4) / 2))), m2 + 1⟩))
          p3 (some ⟨new_rating r3 (team2_change (kfactor m3) (actual_score s1 (s1 + s2))
                (calculate_expected_score ((r1 + r2) / 2) ((r3 + r4) / 2))), m3 + 1⟩))
          p4 (some ⟨new_rating r4 (team2_change (kfactor m4) (actual_score s1 (s1 + s2))
                (calculate_expected_score ((r1 + r2) / 2) ((r3 + r4) / 2))), m4 + 1⟩),
        db.match_log ++ [⟨p1, p2, p3, p4, s1, s2,
          new_rating r1 (team1_change (kfactor m1) (actual_score s1 (s1 + s2))
            (calculate_expected_score ((r1 + r2) / 2) ((r3 + r4) / 2))) - r1,
          -(new_rating r1 (team1_change (kfactor m1) (actual_score s1 (s1 + s2))
            (calculate_expected_score ((r1 + r2) / 2) ((r3 + r4) / 2))) - r1)⟩]⟩,
      PMResult.ok (new_rating r1 (team1_change (kfactor m1) (actual_score s1 (s1 + s2))
        (calculate_expected_score ((r1 + r2) / 2) ((r3 + r4) / 2))) - r1)) := by
  unfold process_match
  rw [h1, h2, h3, h4]
  simp [hs]

/-- On the success path with four distinct ids, the four player rows after the
call, read back individually. -/
theorem process_match_players_after (db : DB) (p1 p2 p3 p4 : ℕ) (s1 s2 : ℤ)
    (r1 r2 r3 r4 : ℝ) (m1 m2 m3 m4 : ℕ)
    (h1 : db.players p1 = some ⟨r1, m1⟩) (h2 : db.players p2 = some ⟨r2, m2⟩)
    (h3 : db.players p3 = some ⟨r3, m3⟩) (h4 : db.players p4 = some ⟨r4, m4⟩)
    (hd : [p1, p2, p3, p4].Nodup) (hs : s1 + s2 ≠ 0) :
    (process_match db p1 p2 p3 p4 s1 s2).fst.players p1 =
      some ⟨new_rating r1 (team1_change (kfactor m1) (actual_score s1 (s1 + s2))
        (calculate_expected_score ((r1 + r2) / 2) ((r3 + r4) / 2))), m1 + 1⟩ ∧
    (process_match db p1 p2 p3 p4 s1 s2).fst.players p2 =
      some ⟨new_rating r2 (team1_change (kfactor m2) (actual_score s1 (s1 + s2))
        (calculate_expected_score ((r1 + r2) / 2) ((r3 + r4) / 2))), m2 + 1⟩ ∧
    (process_match db p1 p2 p3 p4 s1 s2).fst.players p3 =
      some ⟨new_rating r3 (team2_change (kfactor m3) (actual_score s1 (s1 + s2))
        (calculate_expected_score ((r1 + r2) / 2) ((r3 + r4) / 2))), m3 + 1⟩ ∧
    (process_match db p1 p2 p3 p4 s1 s2).fst.players p4 =
      some ⟨new_rating r4 (team2_change (kfactor m4) (actual_score s1 (s1 + s2))
        (calculate_expected_score ((r1 + r2) / 2) ((r3 + r4) / 2))), m4 + 1⟩ := by
  simp only [List.nodup_cons, List.mem_cons, List.mem_singleton, List.not_mem_nil,
    or_false, not_or, List.nodup_nil, and_true] at hd
  obtain ⟨⟨h12, h13, h14⟩, ⟨h23, h24⟩, h34⟩ := hd
  rw [process_match_run db p1 p2 p3 p4 s1 s2 r1 r2 r3 r4 m1 m2 m3 m4 h1 h2 h3 h4 hs]
  dsimp only
  refine ⟨?_, ?_, ?_, ?_⟩
  · rw [Function.update_noteq h14, Function.update_noteq h13,
      Function.update_noteq h12, Function.update_same]
  · rw [Function.update_noteq h24, Function.update_noteq h23,
      Function.update_same]
  · rw [Function.update_noteq h34.1, Function.update_same]
  · rw [Function.update_same]

/-- Every call either leaves the state untouched or returns successfully:
the two failure exits (missing row, zero total) occur before any write. -/
theorem process_match_fst_or (db : DB) (p1 p2 p3 p4 : ℕ) (s1 s2 : ℤ) :
    (process_match db p1 p2 p3 p4 s1 s2).fst = db ∨
    ((process_match db p1 p2 p3 p4 s1 s2).snd).isOk = true := by
  unfold process_match
  rcases db.players p1 with _ | pl1
  · exact Or.inl rfl
  rcases db.players p2 with _ | pl2
  · exact Or.inl rfl
  rcases db.players p3 with _ | pl3
  · exact Or.inl rfl
  rcases db.players p4 with _ | pl4
  · exact Or.inl rfl
  by_cases ht : s1 + s2 = 0
  · simp [ht]
  · simp [ht, PMResult.isOk]

/-- C2: for all finite real ratings `a`, `b`,
`expected(a,b) = 1 / (1 + 10^((b - a) / 400))`,
`expected(a,b) + expected(b,a) = 1` exactly over the reals, and
`expected(a,a) = 0.5`. -/
theorem expected_score_formula_and_symmetry :
    ∀ a b : ℝ,
      calculate_expected_score a b = 1 / (1 + (10 : ℝ) ^ ((b - a) / 400)) ∧
      calculate_expected_score a b + calculate_expected_score b a = 1 ∧
      calculate_expected_score a a = 1 / 2 := fun a b =>
  ⟨rfl, calculate_expected_score_add_symm a b, calculate_expected_score_self a⟩

/-- C3: calling `process_match` with `score_t1 = score_t2 = 0` returns the
invalid-score error (`False, "Total points cannot be zero."`) and performs no
state mutation: the returned database — players and match log — is exactly
the input database. -/
theorem zero_scores_invalid_no_mutation (db : DB) (p1 p2 p3 p4 : ℕ)
    (pl1 pl2 pl3 pl4 : Player)
    (h1 : db.players p1 = some pl1) (h2 : db.players p2 = some pl2)
    (h3 : db.players p3 = some pl3) (h4 : db.players p4 = some pl4) :
    process_match db p1 p2 p3 p4 0 0 = (db, PMResult.invalidScore) := by
  unfold process_match
  rw [h1, h2, h3, h4]
  norm_num

/-- Witness for C3 at a concrete database. -/
theorem zero_scores_invalid_no_mutation_witness :
    sampleDB.players 1 = some ⟨100, 0⟩ ∧ sampleDB.players 2 = some ⟨100, 0⟩ ∧
    sampleDB.players 3 = some ⟨100, 0⟩ ∧ sampleDB.players 4 = some ⟨100, 0⟩ ∧
    process_match sampleDB 1 2 3 4 0 0 = (sampleDB, PMResult.invalidScore) :=
  ⟨rfl, rfl, rfl, rfl,
    zero_scores_invalid_no_mutation sampleDB 1 2 3 4
      ⟨100, 0⟩ ⟨100, 0⟩ ⟨100, 0⟩ ⟨100, 0⟩ rfl rfl rfl rfl⟩

/-- C1: on every successful `process_match` call each participant's new
rating equals `max(RATING_FLOOR, old rating + that player's delta)`, hence no
resulting rating is below the floor, however large a negative delta. -/
theorem rating_floor_invariant (db : DB) (p1 p2 p3 p4 : ℕ) (s1 s2 : ℤ)
    (r1 r2 r3 r4 : ℝ) (m1 m2 m3 m4 : ℕ)
    (h1 : db.players p1 = some ⟨r1, m1⟩) (h2 : db.players p2 = some ⟨r2, m2⟩)
    (h3 : db.players p3 = some ⟨r3, m3⟩) (h4 : db.players p4 = some ⟨r4, m4⟩)
    (hd : [p1, p2, p3, p4].Nodup) (hs : s1 + s2 ≠ 0) :
    ((process_match db p1 p2 p3 p4 s1 s2).fst.players p1 =
      some ⟨max RATING_FLOOR (r1 + team1_change (kfactor m1) (actual_score s1 (s1 + s2))
        (calculate_expected_score ((r1 + r2) / 2) ((r3 + r4) / 2))), m1 + 1⟩) ∧
    ((process_match db p1 p2 p3 p4 s1 s2).fst.players p2 =
      some ⟨max RATING_FLOOR (r2 + team1_change (kfactor m2) (actual_score s1 (s1 + s2))
        (calculate_expected_score ((r1 + r2) / 2) ((r3 + r4) / 2))), m2 + 1⟩) ∧
    ((process_match db p1 p2 p3 p4 s1 s2).fst.players p3 =
      some ⟨max RATING_FLOOR (r3 + team2_change (kfactor m3) (actual_score s1 (s1 + s2))
        (calculate_expected_score ((r1 + r2) / 2) ((r3 + r4) / 2))), m3 + 1⟩) ∧
    ((process_match db p1 p2 p3 p4 s1 s2).fst.players p4 =
      some ⟨max RATING_FLOOR (r4 + team2_change (kfactor m4) (actual_score s1 (s1 + s2))
        (calculate_expected_score ((r1 + r2) / 2) ((r3 + r4) / 2))), m4 + 1⟩) ∧
    (∀ pid ∈ [p1, p2, p3, p4], ∀ pl : Player,
      (process_match db p1 p2 p3 p4 s1 s2).fst.players pid = some pl →
      RATING_FLOOR ≤ pl.rating) := by
  have H := process_match_players_after db p1 p2 p3 p4 s1 s2 r1 r2 r3 r4 m1 m2 m3 m4
    h1 h2 h3 h4 hd hs
  refine ⟨H.1, H.2.1, H.2.2.1, H.2.2.2, ?_⟩
  intro pid hpid pl hpl
  simp only [List.mem_cons, List.not_mem_nil, or_false] at hpid
  rcases hpid with rfl | rfl | rfl | rfl
  · rw [H.1] at hpl
    simp only [Option.some.injEq] at hpl
    subst hpl
    exact le_max_left _ _
  · rw [H.2.1] at hpl
    simp only [Option.some.injEq] at hpl
    subst hpl
    exact le_max_left _ _
  · rw [H.2.2.1] at hpl
    simp only [Option.some.injEq] at hpl
    subst hpl
    exact le_max_left _ _
  · rw [H.2.2.2] at hpl
    simp only [Option.some.injEq] at hpl
    subst hpl
    exact le_max_left _ _

/-- Witness for C1, including the specification's floor scenario: all four
players at rating 100 with 0 matches; score 1-31 gives the first player the
pre-floor delta `64 * (1/32 - 1/2) = -30`, which would take the rating to 70,
and the resulting rating is exactly 100. -/
theorem rating_floor_invariant_witness :
    sampleDB.players 1 = some ⟨100, 0⟩ ∧ sampleDB.players 2 = some ⟨100, 0⟩ ∧
    sampleDB.players 3 = some ⟨100, 0⟩ ∧ sampleDB.players 4 = some ⟨100, 0⟩ ∧
    ([1, 2, 3, 4] : List ℕ).Nodup ∧ ((1 : ℤ) + 31 ≠ 0) ∧
    (∀ pid ∈ [1, 2, 3, 4], ∀ pl : Player,
      (process_match sampleDB 1 2 3 4 1 31).fst.players pid = some pl →
      RATING_FLOOR ≤ pl.rating) ∧
    (100 : ℝ) + 64 * (1 / 32 - 1 / 2) = 70 ∧
    (process_match sampleDB 1 2 3 4 1 31).fst.players 1 = some ⟨100, 1⟩ := by
  refine ⟨rfl, rfl, rfl, rfl, by decide, by decide,
    (rating_floor_invariant sampleDB 1 2 3 4 1 31 100 100 100 100 0 0 0 0
      rfl rfl rfl rfl (by decide) (by decide)).2.2.2.2, by norm_num, ?_⟩
  have H := process_match_players_after sampleDB 1 2 3 4 1 31 100 100 100 100 0 0 0 0
    rfl rfl rfl rfl (by decide) (by decide)
  rw [H.1]
  have hE : calculate_expected_score (((100 : ℝ) + 100) / 2) (((100 : ℝ) + 100) / 2) = 1 / 2 :=
    calculate_expected_score_self _
  have hA : actual_score 1 (1 + 31) = 1 / 32 := by
    unfold actual_score
    norm_num
  have hk : kfactor 0 = 64 := by
    unfold kfactor PROVISIONAL_LIMIT K_FACTOR_PROVISIONAL
    norm_num
  rw [hE, hA, hk]
  have hnew : new_rating 100 (team1_change 64 (1 / 32) (1 / 2)) = 100 := by
    unfold new_rating team1_change RATING_FLOOR
    rw [show (100 : ℝ) + 64 * (1 / 32 - 1 / 2) = 70 by norm_num]
    exact max_eq_left (by norm_num)
  rw [hnew]

/-- C4: in every successful `process_match` call each player's K-factor is
selected from that player's own pre-match `matches_played` (64 below the
provisional limit of 5, 32 from 5 on), so each updated row uses
`kfactor` of its own counter; and the provisional K-factor is exactly double
the standard one. -/
theorem kfactor_per_player (db : DB) (p1 p2 p3 p4 : ℕ) (s1 s2 : ℤ)
    (r1 r2 r3 r4 : ℝ) (m1 m2 m3 m4 : ℕ)
    (h1 : db.players p1 = some ⟨r1, m1⟩) (h2 : db.players p2 = some ⟨r2, m2⟩)
    (h3 : db.players p3 = some ⟨r3, m3⟩) (h4 : db.players p4 = some ⟨r4, m4⟩)
    (hd : [p1, p2, p3, p4].Nodup) (hs : s1 + s2 ≠ 0) :
    (∀ m : ℕ, m < PROVISIONAL_LIMIT → kfactor m = K_FACTOR_PROVISIONAL) ∧
    (∀ m : ℕ, PROVISIONAL_LIMIT ≤ m → kfactor m = K_FACTOR_STANDARD) ∧
    K_FACTOR_PROVISIONAL = 2 * K_FACTOR_STANDARD ∧
    ((process_match db p1 p2 p3 p4 s1 s2).fst.players p1 =
      some ⟨new_rating r1 (team1_change (kfactor m1) (actual_score s1 (s1 + s2))
        (calculate_expected_score ((r1 + r2) / 2) ((r3 + r4) / 2))), m1 + 1⟩) ∧
    ((process_match db p1 p2 p3 p4 s1 s2).fst.players p2 =
      some ⟨new_rating r2 (team1_change (kfactor m2) (actual_score s1 (s1 + s2))
        (calculate_expected_score ((r1 + r2) / 2) ((r3 + r4) / 2))), m2 + 1⟩) ∧
    ((process_match db p1 p2 p3 p4 s1 s2).fst.players p3 =
      some ⟨new_rating r3 (team2_change (kfactor m3) (actual_score s1 (s1 + s2))
        (calculate_expected_score ((r1 + r2) / 2) ((r3 + r4) / 2))), m3 + 1⟩) ∧
    ((process_match db p1 p2 p3 p4 s1 s2).fst.players p4 =
      some ⟨new_rating r4 (team2_change (kfactor m4) (actual_score s1 (s1 + s2))
        (calculate_expected_score ((r1 + r2) / 2) ((r3 + r4) / 2))), m4 + 1⟩) := by
  have H := process_match_players_after db p1 p2 p3 p4 s1 s2 r1 r2 r3 r4 m1 m2 m3 m4
    h1 h2 h3 h4 hd hs
  refine ⟨?_, ?_, ?_, H.1, H.2.1, H.2.2.1, H.2.2.2⟩
  · intro m hm
    unfold kfactor
    rw [if_pos hm]
  · intro m hm
    unfold kfactor
    rw [if_neg (Nat.not_lt.mpr hm)]
  · unfold K_FACTOR_PROVISIONAL K_FACTOR_STANDARD
    norm_num

/-- Witness for C4 at a concrete database and score 10-0; in particular the
doubling identity, obtained from the theorem with every hypothesis
discharged. -/
theorem kfactor_per_player_witness :
    sampleDB.players 1 = some ⟨100, 0⟩ ∧ sampleDB.players 2 = some ⟨100, 0⟩ ∧
    sampleDB.players 3 = some ⟨100, 0⟩ ∧ sampleDB.players 4 = some ⟨100, 0⟩ ∧
    ([1, 2, 3, 4] : List ℕ).Nodup ∧ ((10 : ℤ) + 0 ≠ 0) ∧
    K_FACTOR_PROVISIONAL = 2 * K_FACTOR_STANDARD ∧
    kfactor 0 = K_FACTOR_PROVISIONAL ∧ kfactor 5 = K_FACTOR_STANDARD :=
  ⟨rfl, rfl, rfl, rfl, by decide, by decide,
    (kfactor_per_player sampleDB 1 2 3 4 10 0 100 100 100 100 0 0 0 0
      rfl rfl rfl rfl (by decide) (by decide)).2.2.1,
    (kfactor_per_player sampleDB 1 2 3 4 10 0 100 100 100 100 0 0 0 0
      rfl rfl rfl rfl (by decide) (by decide)).1 0 (by norm_num [PROVISIONAL_LIMIT]),
    (kfactor_per_player sampleDB 1 2 3 4 10 0 100 100 100 100 0 0 0 0
      rfl rfl rfl rfl (by decide) (by decide)).2.1 5 (by norm_num [PROVISIONAL_LIMIT])⟩

/-- C5: in every valid match the Team-1 members' pre-floor delta is
`K * (actual_t1 - expected_t1)` and the Team-2 members' is
`K * ((1 - actual_t1) - (1 - expected_t1))`, which equals
`K * -(actual_t1 - expected_t1)`: the Team-2 raw surprisal is exactly the
negation of Team-1's, scaled only by each player's own K. -/
theorem team_delta_negation (db : DB) (p1 p2 p3 p4 : ℕ) (s1 s2 : ℤ)
    (r1 r2 r3 r4 : ℝ) (m1 m2 m3 m4 : ℕ)
    (h1 : db.players p1 = some ⟨r1, m1⟩) (h2 : db.players p2 = some ⟨r2, m2⟩)
    (h3 : db.players p3 = some ⟨r3, m3⟩) (h4 : db.players p4 = some ⟨r4, m4⟩)
    (hd : [p1, p2, p3, p4].Nodup) (hs : s1 + s2 ≠ 0) :
    ((process_match db p1 p2 p3 p4 s1 s2).fst.players p1 =
      some ⟨new_rating r1 (team1_change (kfactor m1) (actual_score s1 (s1 + s2))
        (calculate_expected_score ((r1 + r2) / 2) ((r3 + r4) / 2))), m1 + 1⟩) ∧
    ((process_match db p1 p2 p3 p4 s1 s2).fst.players p2 =
      some ⟨new_rating r2 (team1_change (kfactor m2) (actual_score s1 (s1 + s2))
        (calculate_expected_score ((r1 + r2) / 2) ((r3 + r4) / 2))), m2 + 1⟩) ∧
    ((process_match db p1 p2 p3 p4 s1 s2).fst.players p3 =
      some ⟨new_rating r3 (team2_change (kfactor m3) (actual_score s1 (s1 + s2))
        (calculate_expected_score ((r1 + r2) / 2) ((r3 + r4) / 2))), m3 + 1⟩) ∧
    ((process_match db p1 p2 p3 p4 s1 s2).fst.players p4 =
      some ⟨new_rating r4 (team2_change (kfactor m4) (actual_score s1 (s1 + s2))
        (calculate_expected_score ((r1 + r2) / 2) ((r3 + r4) / 2))), m4 + 1⟩) ∧
    (∀ k a e : ℝ, team1_change k a e = k * (a - e)) ∧
    (∀ k a e : ℝ, team2_change k a e = k * ((1 - a) - (1 - e))) ∧
    (∀ k a e : ℝ, team2_change k a e = k * -(a - e)) ∧
    (∀ k a e : ℝ, team2_change k a e = -(team1_change k a e)) := by
  have H := process_match_players_after db p1 p2 p3 p4 s1 s2 r1 r2 r3 r4 m1 m2 m3 m4
    h1 h2 h3 h4 hd hs
  refine ⟨H.1, H.2.1, H.2.2.1, H.2.2.2, fun k a e => rfl, fun k a e => rfl, ?_, ?_⟩
  · intro k a e
    unfold team2_change
    ring
  · intro k a e
    unfold team1_change team2_change
    ring

/-- Witness for C5 at a concrete database and score 7-3. -/
theorem team_delta_negation_witness :
    sampleDB.players 1 = some ⟨100, 0⟩ ∧ sampleDB.players 2 = some ⟨100, 0⟩ ∧
    sampleDB.players 3 = some ⟨100, 0⟩ ∧ sampleDB.players 4 = some ⟨100, 0⟩ ∧
    ([1, 2, 3, 4] : List ℕ).Nodup ∧ ((7 : ℤ) + 3 ≠ 0) ∧
    (∀ k a e : ℝ, team2_change k a e = -(team1_change k a e)) :=
  ⟨rfl, rfl, rfl, rfl, by decide, by decide,
    (team_delta_negation sampleDB 1 2 3 4 7 3 100 100 100 100 0 0 0 0
      rfl rfl rfl rfl (by decide) (by decide)).2.2.2.2.2.2.2⟩

/-- C6: each successful `process_match` call increments `matches_played` of
each of the four distinct participants by exactly 1, and any failed call
leaves the whole database — in particular every `matches_played` — unchanged. -/
theorem matches_played_increment :
    (∀ (db : DB) (p1 p2 p3 p4 : ℕ) (s1 s2 : ℤ) (r1 r2 r3 r4 : ℝ)
      (m1 m2 m3 m4 : ℕ),
      db.players p1 = some ⟨r1, m1⟩ → db.players p2 = some ⟨r2, m2⟩ →
      db.players p3 = some ⟨r3, m3⟩ → db.players p4 = some ⟨r4, m4⟩ →
      [p1, p2, p3, p4].Nodup → s1 + s2 ≠ 0 →
      ((process_match db p1 p2 p3 p4 s1 s2).fst.players p1).map Player.matches_played
          = some (m1 + 1) ∧
      ((process_match db p1 p2 p3 p4 s1 s2).fst.players p2).map Player.matches_played
          = some (m2 + 1) ∧
      ((process_match db p1 p2 p3 p4 s1 s2).fst.players p3).map Player.matches_played
          = some (m3 + 1) ∧
      ((process_match db p1 p2 p3 p4 s1 s2).fst.players p4).map Player.matches_played
          = some (m4 + 1)) ∧
    (∀ (db : DB) (p1 p2 p3 p4 : ℕ) (s1 s2 : ℤ),
      ((process_match db p1 p2 p3 p4 s1 s2).snd).isOk = false →
      (process_match db p1 p2 p3 p4 s1 s2).fst = db) := by
  constructor
  · intro db p1 p2 p3 p4 s1 s2 r1 r2 r3 r4 m1 m2 m3 m4 h1 h2 h3 h4 hd hs
    have H := process_match_players_after db p1 p2 p3 p4 s1 s2 r1 r2 r3 r4 m1 m2 m3 m4
      h1 h2 h3 h4 hd hs
    rw [H.1, H.2.1, H.2.2.1, H.2.2.2]
    exact ⟨rfl, rfl, rfl, rfl⟩
  · intro db p1 p2 p3 p4 s1 s2 hfail
    rcases process_match_fst_or db p1 p2 p3 p4 s1 s2 with h | h
    · exact h
    · rw [hfail] at h
      cases h

/-- Witness for C6: success at score 2-1 increments all four counters; the
zero-score failure leaves the database unchanged. -/
theorem matches_played_increment_witness :
    sampleDB.players 1 = some ⟨100, 0⟩ ∧ sampleDB.players 2 = some ⟨100, 0⟩ ∧
    sampleDB.players 3 = some ⟨100, 0⟩ ∧ sampleDB.players 4 = some ⟨100, 0⟩ ∧
    ([1, 2, 3, 4] : List ℕ).Nodup ∧ ((2 : ℤ) + 1 ≠ 0) ∧
    ((process_match sampleDB 1 2 3 4 2 1).fst.players 1).map Player.matches_played
        = some 1 ∧
    ((process_match sampleDB 1 2 3 4 0 0).snd).isOk = false ∧
    (process_match sampleDB 1 2 3 4 0 0).fst = sampleDB :=
  ⟨rfl, rfl, rfl, rfl, by decide, by decide,
    (matches_played_increment.1 sampleDB 1 2 3 4 2 1 100 100 100 100 0 0 0 0
      rfl rfl rfl rfl (by decide) (by decide)).1,
    rfl,
    matches_played_increment.2 sampleDB 1 2 3 4 0 0 rfl⟩

/-- C7 counterexample: `process_match` itself performs no distinctness check.
Called directly with the duplicate selection `p1 = p2 = 1` on a database of
four existing players it succeeds and mutates state (player 1's counter goes
from 0 to 1), instead of failing with a duplicate-player error without
mutation as the claim states. -/
theorem process_match_accepts_duplicates :
    ((process_match sampleDB 1 1 3 4 10 0).snd).isOk = true ∧
    ((process_match sampleDB 1 1 3 4 10 0).fst.players 1).map Player.matches_played
        = some 1 ∧
    (sampleDB.players 1).map Player.matches_played = some 0 :=
  ⟨rfl, rfl, rfl⟩

/-- C7 amended: the distinctness re-validation lives in the presentation
layer, not in the engine.  The submit handler rejects any selection with
fewer than four distinct entries before calling `process_match` and leaves
the state untouched, while `process_match` itself accepts duplicate ids:
with existing players and a non-zero total it succeeds regardless of
distinctness. -/
theorem duplicate_check_in_presentation_layer :
    (∀ (db : DB) (q1 q2 q3 q4 : ℕ) (s1 s2 : ℤ),
      [q1, q2, q3, q4].dedup.length ≠ 4 →
      submit_result db q1 q2 q3 q4 s1 s2 = (db, SubmitMsg.errorDuplicate)) ∧
    (∀ (db : DB) (q1 q2 q3 q4 : ℕ) (s1 s2 : ℤ) (pl1 pl2 pl3 pl4 : Player),
      db.players q1 = some pl1 → db.players q2 = some pl2 →
      db.players q3 = some pl3 → db.players q4 = some pl4 → s1 + s2 ≠ 0 →
      ((process_match db q1 q2 q3 q4 s1 s2).snd).isOk = true) := by
  constructor
  · intro db q1 q2 q3 q4 s1 s2 h
    unfold submit_result
    rw [if_pos h]
  · intro db q1 q2 q3 q4 s1 s2 pl1 pl2 pl3 pl4 h1 h2 h3 h4 hs
    unfold process_match
    rw [h1, h2, h3, h4]
    simp [hs, PMResult.isOk]

/-- Witness for the amended C7: the duplicate selection `1, 1, 3, 4` is
rejected by the submit handler with no state change, and the engine, called
directly with the same duplicate ids, succeeds. -/
theorem duplicate_check_in_presentation_layer_witness :
    ([1, 1, 3, 4] : List ℕ).dedup.length ≠ 4 ∧
    submit_result sampleDB 1 1 3 4 10 0 = (sampleDB, SubmitMsg.errorDuplicate) ∧
    sampleDB.players 1 = some ⟨100, 0⟩ ∧ sampleDB.players 3 = some ⟨100, 0⟩ ∧
    sampleDB.players 4 = some ⟨100, 0⟩ ∧ ((10 : ℤ) + 0 ≠ 0) ∧
    ((process_match sampleDB 1 1 3 4 10 0).snd).isOk = true :=
  ⟨by decide,
    duplicate_check_in_presentation_layer.1 sampleDB 1 1 3 4 10 0 (by decide),
    rfl, rfl, rfl, by decide,
    duplicate_check_in_presentation_layer.2 sampleDB 1 1 3 4 10 0
      ⟨100, 0⟩ ⟨100, 0⟩ ⟨100, 0⟩ ⟨100, 0⟩ rfl rfl rfl rfl (by decide)⟩

/-- C8 counterexample: with player id 4 absent, `process_match` does not
return a typed player-not-found error value: it raises an uncaught
`TypeError` while unpacking the missing row (outcome `crashed`, which is
neither a success return nor the invalid-score error return of the
function), although the state is indeed left unchanged. -/
theorem missing_player_no_typed_error :
    process_match missingDB 1 2 3 4 10 0 = (missingDB, PMResult.crashed) ∧
    (∀ c : ℝ, PMResult.crashed ≠ PMResult.ok c) ∧
    PMResult.crashed ≠ PMResult.invalidScore :=
  ⟨rfl, fun _ h => PMResult.noConfusion h, fun h => PMResult.noConfusion h⟩

/-- C8 amended: if any of the four ids does not resolve to an existing row,
`process_match` aborts before performing any write — the returned state is
exactly the input state, so no partial update is ever visible — but it does
so by raising an uncaught `TypeError` when unpacking the missing row, not by
returning a typed player-not-found error. -/
theorem missing_player_crashes_unchanged (db : DB) (p1 p2 p3 p4 : ℕ)
    (s1 s2 : ℤ)
    (h : db.players p1 = none ∨ db.players p2 = none ∨
      db.players p3 = none ∨ db.players p4 = none) :
    process_match db p1 p2 p3 p4 s1 s2 = (db, PMResult.crashed) := by
  unfold process_match
  rcases e1 : db.players p1 with _ | pl1 <;>
    rcases e2 : db.players p2 with _ | pl2 <;>
      rcases e3 : db.players p3 with _ | pl3 <;>
        rcases e4 : db.players p4 with _ | pl4 <;>
          first
            | rfl
            | simp_all

/-- Witness for the amended C8 at a concrete database missing id 4. -/
theorem missing_player_crashes_unchanged_witness :
    missingDB.players 4 = none ∧
    process_match missingDB 1 2 3 4 5 7 = (missingDB, PMResult.crashed) :=
  ⟨rfl, missing_player_crashes_unchanged missingDB 1 2 3 4 5 7
    (Or.inr (Or.inr (Or.inr rfl)))⟩

/-- C9: on every successful call the appended match record's
`rating_change_team1` equals the delta actually applied (after flooring) to
the first Team-1 player — that player's stored new rating minus their old
rating — and `rating_change_team2` is exactly its negation. -/
theorem match_record_reference_delta (db : DB) (p1 p2 p3 p4 : ℕ) (s1 s2 : ℤ)
    (r1 r2 r3 r4 : ℝ) (m1 m2 m3 m4 : ℕ)
    (h1 : db.players p1 = some ⟨r1, m1⟩) (h2 : db.players p2 = some ⟨r2, m2⟩)
    (h3 : db.players p3 = some ⟨r3, m3⟩) (h4 : db.players p4 = some ⟨r4, m4⟩)
    (hd : [p1, p2, p3, p4].Nodup) (hs : s1 + s2 ≠ 0) :
    ∃ pl1after : Player,
      (process_match db p1 p2 p3 p4 s1 s2).fst.players p1 = some pl1after ∧
      (process_match db p1 p2 p3 p4 s1 s2).fst.match_log =
        db.match_log ++ [⟨p1, p2, p3, p4, s1, s2,
          pl1after.rating - r1, -(pl1after.rating - r1)⟩] := by
  have H := process_match_players_after db p1 p2 p3 p4 s1 s2 r1 r2 r3 r4 m1 m2 m3 m4
    h1 h2 h3 h4 hd hs
  refine ⟨_, H.1, ?_⟩
  rw [process_match_run db p1 p2 p3 p4 s1 s2 r1 r2 r3 r4 m1 m2 m3 m4 h1 h2 h3 h4 hs]

/-- Witness for C9 at a concrete database and score 10-0. -/
theorem match_record_reference_delta_witness :
    sampleDB.players 1 = some ⟨100, 0⟩ ∧ sampleDB.players 2 = some ⟨100, 0⟩ ∧
    sampleDB.players 3 = some ⟨100, 0⟩ ∧ sampleDB.players 4 = some ⟨100, 0⟩ ∧
    ([1, 2, 3, 4] : List ℕ).Nodup ∧ ((10 : ℤ) + 0 ≠ 0) ∧
    (∃ pl1after : Player,
      (process_match sampleDB 1 2 3 4 10 0).fst.players 1 = some pl1after ∧
      (process_match sampleDB 1 2 3 4 10 0).fst.match_log =
        sampleDB.match_log ++ [⟨1, 2, 3, 4, 10, 0,
          pl1after.rating - 100, -(pl1after.rating - 100)⟩]) :=
  ⟨rfl, rfl, rfl, rfl, by decide, by decide,
    match_record_reference_delta sampleDB 1 2 3 4 10 0 100 100 100 100 0 0 0 0
      rfl rfl rfl rfl (by decide) (by decide)⟩

/-- C10: with all four players present, `process_match` rejects its score
inputs exactly when `score_t1 + score_t2 = 0`; any other integer scores —
negative values included — proceed to a successful update, and the
actual-outcome value `score_t1 / (score_t1 + score_t2)` can then lie outside
`[0, 1]`. -/
theorem score_rejection_iff_zero_total (db : DB) (p1 p2 p3 p4 : ℕ)
    (s1 s2 : ℤ) (pl1 pl2 pl3 pl4 : Player)
    (h1 : db.players p1 = some pl1) (h2 : db.players p2 = some pl2)
    (h3 : db.players p3 = some pl3) (h4 : db.players p4 = some pl4) :
    ((process_match db p1 p2 p3 p4 s1 s2).snd = PMResult.invalidScore ↔
      s1 + s2 = 0) ∧
    (s1 + s2 ≠ 0 → ((process_match db p1 p2 p3 p4 s1 s2).snd).isOk = true) := by
  unfold process_match
  rw [h1, h2, h3, h4]
  by_cases ht : s1 + s2 = 0 <;> simp [ht, PMResult.isOk]

/-- Witness for C10: the scores `-1` and `2` have non-zero sum, so the call
is not rejected and succeeds, while the actual-outcome value
`-1 / (-1 + 2) = -1` lies outside `[0, 1]`. -/
theorem score_rejection_iff_zero_total_witness :
    sampleDB.players 1 = some ⟨100, 0⟩ ∧ sampleDB.players 2 = some ⟨100, 0⟩ ∧
    sampleDB.players 3 = some ⟨100, 0⟩ ∧ sampleDB.players 4 = some ⟨100, 0⟩ ∧
    (((process_match sampleDB 1 2 3 4 (-1) 2).snd = PMResult.invalidScore) ↔
      ((-1 : ℤ) + 2 = 0)) ∧
    ((-1 : ℤ) + 2 ≠ 0) ∧
    ((process_match sampleDB 1 2 3 4 (-1) 2).snd).isOk = true ∧
    actual_score (-1) ((-1) + 2) = -1 ∧ actual_score (-1) ((-1) + 2) < 0 := by
  refine ⟨rfl, rfl, rfl, rfl,
    (score_rejection_iff_zero_total sampleDB 1 2 3 4 (-1) 2
      ⟨100, 0⟩ ⟨100, 0⟩ ⟨100, 0⟩ ⟨100, 0⟩ rfl rfl rfl rfl).1,
    by decide,
    (score_rejection_iff_zero_total sampleDB 1 2 3 4 (-1) 2
      ⟨100, 0⟩ ⟨100, 0⟩ ⟨100, 0⟩ ⟨100, 0⟩ rfl rfl rfl rfl).2 (by decide),
    ?_, ?_⟩
  · unfold actual_score
    norm_num
  · unfold actual_score
    norm_num

end Padel
